import Mathlib

/-!
Shallow embedding of the schengen-calc web backend.

The embedded handlers are translated from the repository sources:
* the Square webhook dispatcher and its four event handlers
  (`onRequestPost`, `handleSubscriptionCreatedWebhook`,
  `handleSubscriptionUpdatedWebhook`, `handlePaymentSuccessWebhook`,
  `handlePaymentFailedWebhook`);
* the authentication handlers (`handleUserRegistration`, `handleUserLogin`);
* the create-subscription endpoint (`onRequestPost` of the
  create-subscription file, embedded here as `createSubscriptionPost`).

Modelling conventions:
* The D1 store is a record of lists of rows (`DBState`); parameterized SQL
  statements become pure functions over it.  Columns that are only ever
  written with `datetime("now")` (created_at, updated_at, last_login_at,
  expires_at and the like) carry no information relevant to any handler's
  observable behaviour and are elided.
* JavaScript falsiness of a missing or empty request field is modelled by
  the empty string.
* A store call that throws (a D1 error, e.g. a unique-constraint
  violation) is modelled either by the constraint itself (for the unique
  email column) or by an explicit fault flag / fault message supplied to
  the handler, standing for the rejected call; the handler's `try`/`catch`
  structure is translated faithfully around it.
* Gateway (Square) calls are inputs: an `Except` value per outbound call.
* `bcrypt.compare` is an oracle function passed to the login handler;
  `bcrypt.hash`, `jwt.sign` and `crypto.randomUUID` produce opaque values
  passed in as parameters.
-/

namespace SchengenCalc

/-- A row of the `users` table (schema file): id, email (UNIQUE), names,
nullable password hash, nullable unique Square customer id, and the
subscription-active flag (schema DEFAULT false). -/
structure UserRow where
  id : Nat
  email : String
  firstName : String
  lastName : String
  passwordHash : Option String
  squareCustomerId : Option String
  subscriptionActive : Bool
deriving Repr, DecidableEq

/-- A row of the `subscriptions` table: owning user, nullable unique Square
subscription id, plan type, status string, price in pence, currency,
frequency, and the started_at value bound from the gateway's startDate. -/
structure SubscriptionRow where
  userId : Nat
  squareSubscriptionId : Option String
  planType : String
  status : String
  priceAmount : Int
  currency : String
  frequency : String
  startedAt : Option String
deriving Repr, DecidableEq

/-- A row of the `payments` table: owning user, nullable Square
subscription id, amount in pence, currency, status, nullable Square
payment id, nullable failure reason. -/
structure PaymentRow where
  userId : Nat
  subscriptionId : Option String
  amount : Int
  currency : String
  status : String
  squarePaymentId : Option String
  failureReason : Option String
deriving Repr, DecidableEq

/-- A row of the `user_sessions` table (timestamps elided). -/
structure SessionRow where
  userId : Nat
  sessionToken : String
deriving Repr, DecidableEq

/-- The D1 store: the four tables the embedded handlers touch, plus the
AUTOINCREMENT counter for `users.id`. -/
structure DBState where
  users : List UserRow
  subscriptions : List SubscriptionRow
  payments : List PaymentRow
  sessions : List SessionRow
  nextUserId : Nat
deriving Repr, DecidableEq

/-- `SELECT ... FROM users WHERE email = ?` followed by `.first()`. -/
def findUserByEmail (db : DBState) (email : String) : Option UserRow :=
  db.users.find? (fun u => u.email == email)

/-- JS `String.prototype.toLowerCase()`, defined over the character list
(extensionally `String.toLower`, but stated this way so closed instances
evaluate by kernel reduction). -/
def toLowerStr (s : String) : String := ⟨s.data.map Char.toLower⟩

/-- `SELECT * FROM subscriptions WHERE user_id = ? AND status = 'ACTIVE'`
followed by `.first()`, reduced to row existence (JS truthiness). -/
def hasActiveSubscription (db : DBState) (uid : Nat) : Bool :=
  (db.subscriptions.find? (fun srow => srow.userId == uid && srow.status == "ACTIVE")).isSome

/-- JS `a || d` for an optional string field (`undefined`, `null` and the
empty string are falsy). -/
def jsOrStr (o : Option String) (d : String) : String :=
  match o with
  | some s => if s == "" then d else s
  | none => d

/-- JS `a || d` for an optional integer field (`undefined`, `null` and `0`
are falsy). -/
def jsOrInt (o : Option Int) (d : Int) : Int :=
  match o with
  | some n => if n == 0 then d else n
  | none => d

/-- The `subscription` object of a `subscription.created` /
`subscription.updated` webhook event payload. -/
structure SubscriptionPayload where
  id : String
  customerId : String
  status : String
deriving Repr, DecidableEq

/-- The `invoice` object of an `invoice.payment_made` /
`invoice.payment_failed` webhook event payload; `totalMoney` is optional
(the handler reads it with `?.` and `|| default`). -/
structure InvoicePayload where
  id : String
  subscriptionId : String
  totalMoneyAmount : Option Int
  totalMoneyCurrency : Option String
deriving Repr, DecidableEq

/-- A parsed webhook event: the four recognized types, or any other type
string (the dispatcher's `default` branch). -/
inductive WebhookEvent where
  | subscriptionCreated (s : SubscriptionPayload)
  | subscriptionUpdated (s : SubscriptionPayload)
  | paymentMade (inv : InvoicePayload)
  | paymentFailed (inv : InvoicePayload)
  | other (ty : String)
deriving Repr, DecidableEq

/-- The JSON envelope and HTTP status a webhook branch responds with. -/
structure WebhookResponse where
  status : Nat
  success : Bool
  error : Option String
  message : Option String
deriving Repr, DecidableEq

/-- Result of running a webhook handler: the HTTP response and the store
state it leaves behind. -/
structure WebhookOutcome where
  resp : WebhookResponse
  db : DBState
deriving Repr, DecidableEq

/-- Handler for `subscription.created`: find the user by Square customer
id; if found, `UPDATE subscriptions SET status = 'ACTIVE',
square_subscription_id = ? WHERE user_id = ? AND square_subscription_id =
?`.  `fault` is the message of a store call that throws (caught by the
handler's `catch`, which responds 500 with `error.message`). -/
def handleSubscriptionCreatedWebhook (db : DBState) (fault : Option String)
    (s : SubscriptionPayload) : WebhookOutcome :=
  match fault with
  | some msg => ⟨⟨500, false, some msg, none⟩, db⟩
  | none =>
    match db.users.find? (fun u => u.squareCustomerId == some s.customerId) with
    | some u =>
      ⟨⟨200, true, none, some "Subscription created webhook processed"⟩,
       { db with subscriptions := db.subscriptions.map (fun row =>
           if row.userId == u.id && row.squareSubscriptionId == some s.id then
             { row with status := "ACTIVE", squareSubscriptionId := some s.id }
           else row) }⟩
    | none => ⟨⟨200, true, none, some "Subscription created webhook processed"⟩, db⟩

/-- Handler for `subscription.updated`: `UPDATE subscriptions SET status =
? WHERE square_subscription_id = ?`; then, if the new status is CANCELED
or PAUSED, `SELECT user_id FROM subscriptions WHERE square_subscription_id
= ?` and, when a record is found, `UPDATE users SET subscription_active =
false WHERE id = ?`. -/
def handleSubscriptionUpdatedWebhook (db : DBState) (fault : Option String)
    (s : SubscriptionPayload) : WebhookOutcome :=
  match fault with
  | some msg => ⟨⟨500, false, some msg, none⟩, db⟩
  | none =>
    let db1 : DBState :=
      { db with subscriptions := db.subscriptions.map (fun row =>
          if row.squareSubscriptionId == some s.id then { row with status := s.status }
          else row) }
    let db2 : DBState :=
      if s.status == "CANCELED" || s.status == "PAUSED" then
        match db1.subscriptions.find? (fun row => row.squareSubscriptionId == some s.id) with
        | some rec =>
          { db1 with users := db1.users.map (fun u =>
              if u.id == rec.userId then { u with subscriptionActive := false } else u) }
        | none => db1
      else db1
    ⟨⟨200, true, none, some "Subscription updated webhook processed"⟩, db2⟩

/-- `SELECT user_id FROM subscriptions WHERE square_subscription_id = ?`
followed by `.first()`: only the `user_id` column is selected, so the
result record carries nothing else. -/
def selectUserIdBySquareSubId (db : DBState) (sid : String) : Option Nat :=
  (db.subscriptions.find? (fun row => row.squareSubscriptionId == some sid)).map
    SubscriptionRow.userId

/-- Handler for `invoice.payment_made`: resolve the subscription's
`user_id` by Square subscription id; if found, set the user's
subscription_active flag true and insert a SUCCESS payment row.  The
insert binds `subscription.square_subscription_id`, but the preceding
SELECT returned only `user_id`, so that bind receives an absent field
(stored as NULL, modelled `none`); the INSERT's column list omits
`failure_reason`, which therefore keeps its NULL default. -/
def handlePaymentSuccessWebhook (db : DBState) (fault : Option String)
    (inv : InvoicePayload) : WebhookOutcome :=
  match fault with
  | some msg => ⟨⟨500, false, some msg, none⟩, db⟩
  | none =>
    match selectUserIdBySquareSubId db inv.subscriptionId with
    | some uid =>
      let db1 : DBState :=
        { db with users := db.users.map (fun u =>
            if u.id == uid then { u with subscriptionActive := true } else u) }
      let row : PaymentRow :=
        ⟨uid, none, jsOrInt inv.totalMoneyAmount 0, jsOrStr inv.totalMoneyCurrency "GBP",
         "SUCCESS", some inv.id, none⟩
      ⟨⟨200, true, none, some "Payment success webhook processed"⟩,
       { db1 with payments := db1.payments ++ [row] }⟩
    | none => ⟨⟨200, true, none, some "Payment success webhook processed"⟩, db⟩

/-- Handler for `invoice.payment_failed`: resolve the subscription's
`user_id`; if found, insert a FAILED payment row (same column list as the
success insert: the bound `square_subscription_id` field is absent from
the selected record, and `failure_reason` is omitted from the column
list); the subscription_active flag is not touched. -/
def handlePaymentFailedWebhook (db : DBState) (fault : Option String)
    (inv : InvoicePayload) : WebhookOutcome :=
  match fault with
  | some msg => ⟨⟨500, false, some msg, none⟩, db⟩
  | none =>
    match selectUserIdBySquareSubId db inv.subscriptionId with
    | some uid =>
      let row : PaymentRow :=
        ⟨uid, none, jsOrInt inv.totalMoneyAmount 0, jsOrStr inv.totalMoneyCurrency "GBP",
         "FAILED", some inv.id, none⟩
      ⟨⟨200, true, none, some "Payment failure webhook processed"⟩,
       { db with payments := db.payments ++ [row] }⟩
    | none => ⟨⟨200, true, none, some "Payment failure webhook processed"⟩, db⟩

/-- The webhook endpoint's `onRequestPost`: reject a missing
`x-square-signature` header (400), reject a body that fails `JSON.parse`
(400, modelled by `body = none`), dispatch the four recognized event types
to their handlers, and acknowledge any other type with 200. -/
def webhookOnRequestPost (db : DBState) (fault : Option String)
    (sig : Option String) (body : Option WebhookEvent) : WebhookOutcome :=
  match sig with
  | none => ⟨⟨400, false, some "Missing webhook signature", none⟩, db⟩
  | some _ =>
    match body with
    | none => ⟨⟨400, false, some "Invalid JSON in webhook body", none⟩, db⟩
    | some ev =>
      match ev with
      | WebhookEvent.subscriptionCreated s => handleSubscriptionCreatedWebhook db fault s
      | WebhookEvent.subscriptionUpdated s => handleSubscriptionUpdatedWebhook db fault s
      | WebhookEvent.paymentMade inv => handlePaymentSuccessWebhook db fault inv
      | WebhookEvent.paymentFailed inv => handlePaymentFailedWebhook db fault inv
      | WebhookEvent.other _ =>
        ⟨⟨200, true, none, some "Webhook received but not handled"⟩, db⟩

/-- Character class `[^\s@]` of the registration email regex. -/
def isEmailAtomChar (c : Char) : Bool :=
  !c.isWhitespace && c != '@'

/-- The registration email check `/^[^\s@]+@[^\s@]+\.[^\s@]+$/`: exactly
one `@`, a nonempty whitespace-free part before it, and after it a
nonempty whitespace-free part containing a dot that is neither its first
nor its last character. -/
def emailRegexTest (s : String) : Bool :=
  match s.data.splitOn '@' with
  | [before, domain] =>
    decide (0 < before.length) && before.all isEmailAtomChar &&
    decide (0 < domain.length) && domain.all isEmailAtomChar &&
    (domain.drop 1).dropLast.contains '.'
  | _ => false

/-- Body of a registration request; a missing field (JS falsy) is the
empty string. -/
structure RegisterRequest where
  email : String
  firstName : String
  lastName : String
  password : String
deriving Repr, DecidableEq

/-- `requiredFields.filter(field => !userData[field])` of the registration
handler. -/
def regMissingFields (r : RegisterRequest) : List String :=
  (if r.email == "" then ["email"] else []) ++
  (if r.firstName == "" then ["firstName"] else []) ++
  (if r.lastName == "" then ["lastName"] else []) ++
  (if r.password == "" then ["password"] else [])

/-- Response of the registration handler: an error envelope with its HTTP
status, or the 201 payload's `user` object (the issued JWT and session
token are opaque passthroughs and are elided). -/
inductive RegisterResult where
  | fail (status : Nat) (error : String)
  | created (userId : Nat) (userEmail : String) (userFirstName : String)
      (userLastName : String) (subscriptionActive : Bool)
deriving Repr, DecidableEq

/-- Result of running the registration handler. -/
structure RegisterOutcome where
  resp : RegisterResult
  db : DBState
deriving Repr, DecidableEq

/-- The registration handler `handleUserRegistration`: validate the four
fields, the email regex and the password length; advisory duplicate
pre-check on the lower-cased email (409); then hash the password (opaque
`passwordHash` input) and INSERT the user.  `interfere` is the store
activity of concurrent requests between the pre-check SELECT and the
INSERT; if the INSERT violates the UNIQUE constraint on `users.email` it
throws, which the handler's outer `catch` turns into a generic 500
"Internal server error".  On success a session row is inserted and the
201 payload echoes the inserted row (RETURNING clause). -/
def handleUserRegistration (db : DBState) (interfere : DBState → DBState)
    (passwordHash sessionToken : String) (r : RegisterRequest) : RegisterOutcome :=
  let missing := regMissingFields r
  if 0 < missing.length then
    ⟨RegisterResult.fail 400 ("Missing required fields: " ++ String.intercalate ", " missing), db⟩
  else if !emailRegexTest r.email then
    ⟨RegisterResult.fail 400 "Invalid email format", db⟩
  else if r.password.length < 8 then
    ⟨RegisterResult.fail 400 "Password must be at least 8 characters long", db⟩
  else
    match findUserByEmail db (toLowerStr r.email) with
    | some _ => ⟨RegisterResult.fail 409 "User already exists with this email", db⟩
    | none =>
      let db1 := interfere db
      if db1.users.any (fun u => u.email == toLowerStr r.email) then
        ⟨RegisterResult.fail 500 "Internal server error", db1⟩
      else
        let uid := db1.nextUserId
        let newUser : UserRow :=
          ⟨uid, toLowerStr r.email, r.firstName, r.lastName, some passwordHash, none, false⟩
        let db2 : DBState :=
          { db1 with users := db1.users ++ [newUser], nextUserId := uid + 1,
                     sessions := db1.sessions ++ [⟨uid, sessionToken⟩] }
        ⟨RegisterResult.created uid newUser.email r.firstName r.lastName false, db2⟩

/-- Body of a login request; a missing field (JS falsy) is the empty
string. -/
structure LoginRequest where
  email : String
  password : String
deriving Repr, DecidableEq

/-- The active-subscription summary attached to a successful login. -/
structure SubscriptionSummary where
  planType : String
  frequency : String
  status : String
deriving Repr, DecidableEq

/-- Response of the login handler (token and session token elided as
opaque passthroughs). -/
inductive LoginResult where
  | fail (status : Nat) (error : String)
  | ok (userId : Nat) (userEmail : String) (userFirstName : String)
      (userLastName : String) (subscriptionActive : Bool)
      (subscription : Option SubscriptionSummary)
deriving Repr, DecidableEq

/-- Result of running the login handler. -/
structure LoginOutcome where
  resp : LoginResult
  db : DBState
deriving Repr, DecidableEq

/-- The login handler `handleUserLogin`: require both fields; look the
user up by lower-cased email; respond 401 "Invalid email or password"
when no user matches, and the same 401 when `bcrypt.compare` rejects the
password (a NULL stored hash makes `bcrypt.compare` reject, landing in
the outer catch as a 500); on success update last-login (timestamp
elided), insert a session row, and attach the user's ACTIVE subscription
summary if one exists. -/
def handleUserLogin (db : DBState) (bcryptCompare : String → String → Bool)
    (sessionToken : String) (r : LoginRequest) : LoginOutcome :=
  if r.email == "" || r.password == "" then
    ⟨LoginResult.fail 400 "Email and password are required", db⟩
  else
    match findUserByEmail db (toLowerStr r.email) with
    | none => ⟨LoginResult.fail 401 "Invalid email or password", db⟩
    | some u =>
      match u.passwordHash with
      | none => ⟨LoginResult.fail 500 "Internal server error", db⟩
      | some hsh =>
        if !bcryptCompare r.password hsh then
          ⟨LoginResult.fail 401 "Invalid email or password", db⟩
        else
          let db1 : DBState := { db with sessions := db.sessions ++ [⟨u.id, sessionToken⟩] }
          let sub := db1.subscriptions.find?
            (fun srow => srow.userId == u.id && srow.status == "ACTIVE")
          ⟨LoginResult.ok u.id u.email u.firstName u.lastName u.subscriptionActive
            (sub.map (fun srow => ⟨srow.planType, srow.frequency, srow.status⟩)), db1⟩

/-- An entry of the `SUBSCRIPTION_PLANS` mapping of the create-subscription
endpoint. -/
structure PlanInfo where
  planName : String
  frequency : String
  price : Int
deriving Repr, DecidableEq

/-- The fixed plan catalogue of the create-subscription endpoint. -/
def SUBSCRIPTION_PLANS : String → Option PlanInfo
  | "pro-monthly" => some ⟨"Pro Plan", "MONTHLY", 299⟩
  | "pro-annual" => some ⟨"Pro Plan", "ANNUALLY", 2400⟩
  | "business-monthly" => some ⟨"Business Plan", "MONTHLY", 1000⟩
  | "business-annual" => some ⟨"Business Plan", "ANNUALLY", 10000⟩
  | _ => none

/-- Body of a create-subscription request; a missing field (JS falsy) is
the empty string. -/
structure SubRequest where
  email : String
  firstName : String
  lastName : String
  planType : String
  paymentToken : String
deriving Repr, DecidableEq

/-- `requiredFields.filter(field => !requestData[field])` of the
create-subscription handler. -/
def subMissingFields (r : SubRequest) : List String :=
  (if r.email == "" then ["email"] else []) ++
  (if r.firstName == "" then ["firstName"] else []) ++
  (if r.lastName == "" then ["lastName"] else []) ++
  (if r.planType == "" then ["planType"] else []) ++
  (if r.paymentToken == "" then ["paymentToken"] else [])

/-- The `subscription` object returned by the gateway's
createSubscription call. -/
structure GatewaySub where
  id : String
  status : String
  startDate : String
deriving Repr, DecidableEq

/-- Results of the three outbound Square calls the create-subscription
handler can make, supplied as inputs: the location lookup, the customer
creation, and the subscription creation (each an error message or a
result). -/
structure SquareGateway where
  locationResult : Except String String
  customerResult : Except String String
  subscriptionResult : Except String GatewaySub
deriving Repr

/-- Store calls of the create-subscription handler that throw, one flag
per guarded statement: the existing-user/active-subscription SELECT block
(caught and logged, execution continues), the user INSERT (its catch
rethrows "Failed to create user account"), the square_customer_id UPDATE
(caught and logged), and the subscription INSERT (caught and logged). -/
structure DbFaults where
  checkUserThrows : Bool
  insertUserThrows : Bool
  updateCustomerIdThrows : Bool
  insertSubscriptionThrows : Bool
deriving Repr, DecidableEq

/-- Which gateway objects the handler created during a run. -/
structure GatewayEffects where
  customerCreateCalled : Bool
  subscriptionCreateCalled : Bool
deriving Repr, DecidableEq

/-- No gateway create call was made. -/
def noEffects : GatewayEffects := ⟨false, false⟩

/-- Response of the create-subscription handler: an error envelope with
its HTTP status, or the 201 payload (`subscription` and `user` objects). -/
inductive SubResult where
  | fail (status : Nat) (error : String)
  | created (subId : String) (planType : String) (planName : String)
      (frequency : String) (price : Int) (currency : String)
      (subStatus : String) (startDate : String)
      (userId : Nat) (userEmail : String) (squareCustomerId : String)
deriving Repr, DecidableEq

/-- Result of running the create-subscription handler: response, final
store state, and the gateway create calls made. -/
structure SubOutcome where
  resp : SubResult
  db : DBState
  fx : GatewayEffects
deriving Repr, DecidableEq

/-- Steps 3-6 of the create-subscription handler, shared by the
existing-user and the new-user paths once a local user id is known:
create the Square customer, persist its id on the user row (failure
caught and logged), create the Square subscription, persist the local
subscription row with status ACTIVE (failure caught and logged), and
build the 201 payload.  A failed gateway call throws, so the outer catch
responds 500 with the thrown message. -/
def createSubscriptionRest (db : DBState) (gw : SquareGateway) (faults : DbFaults)
    (r : SubRequest) (planInfo : PlanInfo) (uid : Nat) : SubOutcome :=
  match gw.customerResult with
  | Except.error e =>
    ⟨SubResult.fail 500 ("Failed to create Square customer: " ++ e), db, ⟨true, false⟩⟩
  | Except.ok squareCustomerId =>
    let db1 : DBState :=
      if faults.updateCustomerIdThrows then db
      else { db with users := db.users.map (fun u =>
               if u.id == uid then { u with squareCustomerId := some squareCustomerId }
               else u) }
    match gw.subscriptionResult with
    | Except.error e =>
      ⟨SubResult.fail 500 ("Failed to create subscription: " ++ e), db1, ⟨true, true⟩⟩
    | Except.ok gsub =>
      let db2 : DBState :=
        if faults.insertSubscriptionThrows then db1
        else { db1 with subscriptions := db1.subscriptions ++
                 [⟨uid, some gsub.id, r.planType, "ACTIVE", planInfo.price, "GBP",
                   planInfo.frequency, some gsub.startDate⟩] }
      ⟨SubResult.created gsub.id r.planType planInfo.planName planInfo.frequency
         planInfo.price "GBP" gsub.status gsub.startDate uid r.email squareCustomerId,
       db2, ⟨true, true⟩⟩

/-- The create-subscription endpoint's `onRequestPost`: validate the five
fields and the plan type; fetch the Square location (failure throws, so
the outer catch responds 500); look the user up by the request email as
given (no normalization) unless that SELECT block throws; reject 409 when
the found user has an ACTIVE subscription row; otherwise INSERT a user
row with the request email as given (a throw, including a UNIQUE
violation on email, becomes "Failed to create user account", rethrown to
the outer catch as a 500); then continue with the gateway steps. -/
def createSubscriptionPost (db : DBState) (gw : SquareGateway) (faults : DbFaults)
    (r : SubRequest) : SubOutcome :=
  let missing := subMissingFields r
  if 0 < missing.length then
    ⟨SubResult.fail 400 ("Missing required fields: " ++ String.intercalate ", " missing),
     db, noEffects⟩
  else
    match SUBSCRIPTION_PLANS r.planType with
    | none => ⟨SubResult.fail 400 ("Invalid plan type: " ++ r.planType), db, noEffects⟩
    | some planInfo =>
      match gw.locationResult with
      | Except.error e =>
        ⟨SubResult.fail 500 ("Failed to get Square location: " ++ e), db, noEffects⟩
      | Except.ok _ =>
        let found := if faults.checkUserThrows then none else findUserByEmail db r.email
        match found with
        | some u =>
          if hasActiveSubscription db u.id then
            ⟨SubResult.fail 409 "User already has an active subscription", db, noEffects⟩
          else
            createSubscriptionRest db gw faults r planInfo u.id
        | none =>
          if faults.insertUserThrows || db.users.any (fun u => u.email == r.email) then
            ⟨SubResult.fail 500 "Failed to create user account", db, noEffects⟩
          else
            let uid := db.nextUserId
            let db1 : DBState :=
              { db with users := db.users ++ [⟨uid, r.email, r.firstName, r.lastName,
                                               none, none, false⟩],
                        nextUserId := uid + 1 }
            createSubscriptionRest db1 gw faults r planInfo uid

/-! Concrete fixtures used by witnesses and counterexamples. -/

/-- A registered user with a lower-cased email. -/
def userA : UserRow := ⟨1, "a@x.com", "A", "B", some "hashA", some "cust1", false⟩

/-- The same user with the subscription-active flag set. -/
def userActive : UserRow := ⟨1, "a@x.com", "A", "B", some "hashA", some "cust1", true⟩

/-- An ACTIVE subscription row owned by user 1, Square id "sub1". -/
def subRow1 : SubscriptionRow :=
  ⟨1, some "sub1", "pro-monthly", "ACTIVE", 299, "GBP", "MONTHLY", some "2024-01-01"⟩

/-- Store with one user and that user's ACTIVE subscription. -/
def dbWithSub : DBState := ⟨[userA], [subRow1], [], [], 2⟩

/-- Store with the flag-set user and the ACTIVE subscription. -/
def dbActive : DBState := ⟨[userActive], [subRow1], [], [], 2⟩

/-- Store with one user and no subscriptions. -/
def dbOneUser : DBState := ⟨[userA], [], [], [], 2⟩

/-- The empty store. -/
def emptyDb : DBState := ⟨[], [], [], [], 1⟩

/-- A payment-made / payment-failed invoice payload for subscription
"sub1". -/
def inv1 : InvoicePayload := ⟨"inv1", "sub1", some 299, some "GBP"⟩

/-- A gateway where all three outbound calls succeed. -/
def gwOk : SquareGateway :=
  ⟨Except.ok "LOC1", Except.ok "custNew", Except.ok ⟨"gwsub1", "ACTIVE", "2024-06-01"⟩⟩

/-- No store call throws. -/
def noFaults : DbFaults := ⟨false, false, false, false⟩

/-- Only the local subscription INSERT throws. -/
def faultsInsertSubThrows : DbFaults := ⟨false, false, false, true⟩

/-- A create-subscription request matching `userA`'s email exactly. -/
def reqA : SubRequest := ⟨"a@x.com", "A", "B", "pro-monthly", "tok1"⟩

/-- A create-subscription request whose email differs from `userA`'s only
in casing. -/
def reqUpper : SubRequest := ⟨"A@X.com", "A", "B", "pro-monthly", "tok1"⟩

/-- A valid registration request. -/
def regR1 : RegisterRequest := ⟨"a@X.com", "A", "B", "password1"⟩

/-- A second valid registration request for the same address in another
casing. -/
def regR2 : RegisterRequest := ⟨"A@x.com", "A", "B", "password2"⟩

/-- Concurrent store activity that inserts a user with email "a@x.com"
between the advisory pre-check and the INSERT. -/
def interfereDup : DBState → DBState := fun db =>
  { db with users := db.users ++ [⟨1, "a@x.com", "C", "D", some "hashC", none, false⟩],
            nextUserId := 2 }

/-! Helper lemmas. -/

/-- If filtering a list yields exactly one element, `find?` returns it. -/
theorem find?_of_filter_eq_singleton {α : Type} {p : α → Bool} {l : List α} {a : α}
    (h : l.filter p = [a]) : l.find? p = some a := by
  induction l with
  | nil => simp at h
  | cons x xs ih =>
    by_cases hx : p x
    · simp only [List.filter_cons, hx, if_true] at h
      simp only [List.cons.injEq] at h
      obtain ⟨rfl, -⟩ := h
      simp [List.find?_cons, hx]
    · simp only [List.filter_cons, hx, Bool.false_eq_true, if_false] at h
      simp [List.find?_cons, hx, ih h]

/-- A list none of whose elements satisfies `p` (as witnessed by `find?`)
has `any p` false. -/
theorem any_eq_false_of_find?_eq_none {α : Type} {p : α → Bool} {l : List α}
    (h : l.find? p = none) : l.any p = false := by
  rw [List.any_eq_false]
  intro x hx
  exact List.find?_eq_none.mp h x hx

/-!
Claim theorems.
-/

/-- C5: for every login attempt with an unknown email and every login
attempt with a known email but wrong password, the responses are
identical: the same InvalidCredentials error message ("Invalid email or
password") and the same 401 status, never distinguishing the two cases. -/
theorem login_uniform_invalid_credentials
    (db : DBState) (cmp : String → String → Bool) (st1 st2 : String)
    (r1 r2 : LoginRequest) (u : UserRow) (hsh : String)
    (h1e : r1.email ≠ "") (h1p : r1.password ≠ "")
    (h2e : r2.email ≠ "") (h2p : r2.password ≠ "")
    (hA : findUserByEmail db (toLowerStr r1.email) = none)
    (hB : findUserByEmail db (toLowerStr r2.email) = some u)
    (hH : u.passwordHash = some hsh)
    (hC : cmp r2.password hsh = false) :
    (handleUserLogin db cmp st1 r1).resp = LoginResult.fail 401 "Invalid email or password" ∧
    (handleUserLogin db cmp st2 r2).resp = (handleUserLogin db cmp st1 r1).resp := by
  have e1 : (r1.email == "") = false := beq_eq_false_iff_ne.mpr h1e
  have p1 : (r1.password == "") = false := beq_eq_false_iff_ne.mpr h1p
  have e2 : (r2.email == "") = false := beq_eq_false_iff_ne.mpr h2e
  have p2 : (r2.password == "") = false := beq_eq_false_iff_ne.mpr h2p
  constructor
  · simp [handleUserLogin, e1, p1, hA]
  · simp [handleUserLogin, e1, p1, e2, p2, hA, hB, hH, hC]

/-- Witness for C5 at a concrete store: an unknown email and a wrong
password for the registered user produce the same 401 response. -/
theorem login_uniform_invalid_credentials_witness :
    (handleUserLogin dbOneUser (fun _ _ => false) "s1" ⟨"nobody@x.com", "pw1"⟩).resp =
      LoginResult.fail 401 "Invalid email or password" ∧
    (handleUserLogin dbOneUser (fun _ _ => false) "s2" ⟨"a@x.com", "wrongpass"⟩).resp =
      (handleUserLogin dbOneUser (fun _ _ => false) "s1" ⟨"nobody@x.com", "pw1"⟩).resp :=
  login_uniform_invalid_credentials dbOneUser (fun _ _ => false) "s1" "s2"
    ⟨"nobody@x.com", "pw1"⟩ ⟨"a@x.com", "wrongpass"⟩ userA "hashA"
    (by decide) (by decide) (by decide) (by decide)
    (by decide) (by decide) (by decide) rfl

/-- C6: for every createSubscription request (with its five fields
present and a known plan type, the gateway location lookup succeeding and
the existing-user check not throwing) whose email resolves to an existing
user that already has a subscription row with status "ACTIVE", the
operation fails with the 409 AlreadyActive conflict, regardless of the
plan type requested, the store is unchanged, and no gateway customer or
subscription is created for that request. -/
theorem createSubscription_alreadyActive_conflict
    (db : DBState) (gw : SquareGateway) (faults : DbFaults) (r : SubRequest)
    (p : PlanInfo) (u : UserRow) (loc : String)
    (he : r.email ≠ "") (hf : r.firstName ≠ "") (hl : r.lastName ≠ "")
    (ht : r.paymentToken ≠ "")
    (hplan : SUBSCRIPTION_PLANS r.planType = some p)
    (hloc : gw.locationResult = Except.ok loc)
    (hchk : faults.checkUserThrows = false)
    (huser : findUserByEmail db r.email = some u)
    (hact : hasActiveSubscription db u.id = true) :
    createSubscriptionPost db gw faults r =
      ⟨SubResult.fail 409 "User already has an active subscription", db, noEffects⟩ := by
  have e1 : (r.email == "") = false := beq_eq_false_iff_ne.mpr he
  have e2 : (r.firstName == "") = false := beq_eq_false_iff_ne.mpr hf
  have e3 : (r.lastName == "") = false := beq_eq_false_iff_ne.mpr hl
  have e5 : (r.paymentToken == "") = false := beq_eq_false_iff_ne.mpr ht
  have hpt : r.planType ≠ "" := by
    intro hh
    rw [hh] at hplan
    have : SUBSCRIPTION_PLANS "" = none := by decide
    rw [this] at hplan
    exact Option.noConfusion hplan
  have e4 : (r.planType == "") = false := beq_eq_false_iff_ne.mpr hpt
  simp [createSubscriptionPost, subMissingFields, e1, e2, e3, e4, e5,
        hplan, hloc, hchk, huser, hact, noEffects]

/-- Witness for C6 at a concrete store: the user with an ACTIVE
subscription row gets the 409 conflict and no gateway objects. -/
theorem createSubscription_alreadyActive_conflict_witness :
    createSubscriptionPost dbWithSub gwOk noFaults reqA =
      ⟨SubResult.fail 409 "User already has an active subscription", dbWithSub, noEffects⟩ :=
  createSubscription_alreadyActive_conflict dbWithSub gwOk noFaults reqA
    ⟨"Pro Plan", "MONTHLY", 299⟩ userA "LOC1"
    (by decide) (by decide) (by decide) (by decide)
    (by decide) rfl rfl (by decide) (by decide)

/-- C8: for every valid registration, the returned user's email equals
the input email lower-cased, and a second valid registration with the
same email in any casing against the resulting store fails DuplicateEmail
(the 409 conflict "User already exists with this email"). -/
theorem register_lowercases_email_and_rejects_duplicate
    (db : DBState) (hash1 st1 hash2 st2 : String) (r1 r2 : RegisterRequest)
    (h1e : r1.email ≠ "") (h1f : r1.firstName ≠ "") (h1l : r1.lastName ≠ "")
    (h1re : emailRegexTest r1.email = true) (h1pw : 8 ≤ r1.password.length)
    (h2e : r2.email ≠ "") (h2f : r2.firstName ≠ "") (h2l : r2.lastName ≠ "")
    (h2re : emailRegexTest r2.email = true) (h2pw : 8 ≤ r2.password.length)
    (hfresh : findUserByEmail db (toLowerStr r1.email) = none)
    (hsame : toLowerStr r2.email = toLowerStr r1.email) :
    (handleUserRegistration db id hash1 st1 r1).resp =
      RegisterResult.created db.nextUserId (toLowerStr r1.email) r1.firstName r1.lastName false ∧
    (handleUserRegistration (handleUserRegistration db id hash1 st1 r1).db
        id hash2 st2 r2).resp =
      RegisterResult.fail 409 "User already exists with this email" := by
  have e1 : (r1.email == "") = false := beq_eq_false_iff_ne.mpr h1e
  have f1 : (r1.firstName == "") = false := beq_eq_false_iff_ne.mpr h1f
  have l1 : (r1.lastName == "") = false := beq_eq_false_iff_ne.mpr h1l
  have pw1ne : (r1.password == "") = false := by
    refine beq_eq_false_iff_ne.mpr (fun hh => ?_)
    rw [hh] at h1pw
    exact absurd h1pw (by decide)
  have pw1lt : ¬(r1.password.length < 8) := Nat.not_lt.mpr h1pw
  have hfresh1 : db.users.find? (fun u => u.email == toLowerStr r1.email) = none := hfresh
  have hany : db.users.any (fun u => u.email == toLowerStr r1.email) = false :=
    any_eq_false_of_find?_eq_none hfresh1
  have hrun1 : handleUserRegistration db id hash1 st1 r1 =
      ⟨RegisterResult.created db.nextUserId (toLowerStr r1.email) r1.firstName r1.lastName false,
       ⟨db.users ++ [⟨db.nextUserId, toLowerStr r1.email, r1.firstName, r1.lastName,
                      some hash1, none, false⟩],
        db.subscriptions, db.payments, db.sessions ++ [⟨db.nextUserId, st1⟩],
        db.nextUserId + 1⟩⟩ := by
    simp [handleUserRegistration, regMissingFields, e1, f1, l1, pw1ne, pw1lt, h1re,
          hfresh, hany]
  refine ⟨by rw [hrun1], ?_⟩
  rw [hrun1]
  have e2 : (r2.email == "") = false := beq_eq_false_iff_ne.mpr h2e
  have f2 : (r2.firstName == "") = false := beq_eq_false_iff_ne.mpr h2f
  have l2 : (r2.lastName == "") = false := beq_eq_false_iff_ne.mpr h2l
  have pw2ne : (r2.password == "") = false := by
    refine beq_eq_false_iff_ne.mpr (fun hh => ?_)
    rw [hh] at h2pw
    exact absurd h2pw (by decide)
  have pw2lt : ¬(r2.password.length < 8) := Nat.not_lt.mpr h2pw
  have hfind2 : findUserByEmail
      (⟨db.users ++ [⟨db.nextUserId, toLowerStr r1.email, r1.firstName, r1.lastName,
                      some hash1, none, false⟩],
        db.subscriptions, db.payments, db.sessions ++ [⟨db.nextUserId, st1⟩],
        db.nextUserId + 1⟩ : DBState) (toLowerStr r2.email) =
      some ⟨db.nextUserId, toLowerStr r1.email, r1.firstName, r1.lastName,
            some hash1, none, false⟩ := by
    simp [findUserByEmail, hsame, List.find?_append, hfresh1]
  simp [handleUserRegistration, regMissingFields, e2, f2, l2, pw2ne, pw2lt, h2re, hfind2]

/-- Witness for C8 at the empty store: registering "a@X.com" returns the
lower-cased email, and registering "A@x.com" afterwards gets the 409. -/
theorem register_lowercases_email_and_rejects_duplicate_witness :
    (handleUserRegistration emptyDb id "hashA" "sess1" regR1).resp =
      RegisterResult.created emptyDb.nextUserId (toLowerStr regR1.email)
        regR1.firstName regR1.lastName false ∧
    (handleUserRegistration (handleUserRegistration emptyDb id "hashA" "sess1" regR1).db
        id "hashB" "sess2" regR2).resp =
      RegisterResult.fail 409 "User already exists with this email" :=
  register_lowercases_email_and_rejects_duplicate emptyDb "hashA" "sess1" "hashB" "sess2"
    regR1 regR2 (by decide) (by decide) (by decide) (by decide) (by decide)
    (by decide) (by decide) (by decide) (by decide) (by decide) (by decide) (by decide)

/-- C9: for every subscription.updated webhook event whose Square
subscription id matches exactly one local subscription row (the schema's
UNIQUE constraint) and whose processing store calls do not throw, the
local subscription row's status is updated to the status from the event
payload, and if the new status is CANCELED or PAUSED, the owning user's
subscription-active flag is set false. -/
theorem subscriptionUpdated_sets_status_and_clears_flag
    (db : DBState) (s : SubscriptionPayload) (row : SubscriptionRow)
    (huniq : db.subscriptions.filter (fun t => t.squareSubscriptionId == some s.id) = [row]) :
    (∀ t ∈ (handleSubscriptionUpdatedWebhook db none s).db.subscriptions,
        t.squareSubscriptionId = some s.id → t.status = s.status) ∧
    ((s.status = "CANCELED" ∨ s.status = "PAUSED") →
      ∀ u ∈ (handleSubscriptionUpdatedWebhook db none s).db.users,
        u.id = row.userId → u.subscriptionActive = false) := by
  have hkey : ∀ t : SubscriptionRow,
      ((if t.squareSubscriptionId == some s.id then { t with status := s.status } else t).squareSubscriptionId
        == some s.id) = (t.squareSubscriptionId == some s.id) := by
    intro t
    cases ht : (t.squareSubscriptionId == some s.id) <;> simp [ht]
  have hsubs : (handleSubscriptionUpdatedWebhook db none s).db.subscriptions
      = db.subscriptions.map
          (fun t => if t.squareSubscriptionId == some s.id then { t with status := s.status } else t) := by
    simp only [handleSubscriptionUpdatedWebhook]
    split
    · split <;> rfl
    · rfl
  have hfind : db.subscriptions.find? (fun t => t.squareSubscriptionId == some s.id) = some row :=
    find?_of_filter_eq_singleton huniq
  constructor
  · intro t ht hts
    rw [hsubs] at ht
    obtain ⟨t0, ht0, rfl⟩ := List.mem_map.mp ht
    cases h0 : (t0.squareSubscriptionId == some s.id)
    · simp only [h0, Bool.false_eq_true, if_false] at hts ⊢
      exact absurd hts (beq_eq_false_iff_ne.mp h0)
    · simp [h0]
  · intro hst u hu hid
    have hcond : (s.status == "CANCELED" || s.status == "PAUSED") = true := by
      cases hst with
      | inl h => simp [h]
      | inr h => simp [h]
    have hrowid : (if row.squareSubscriptionId == some s.id
        then { row with status := s.status } else row).userId = row.userId := by
      cases h0 : (row.squareSubscriptionId == some s.id) <;> simp [h0]
    have hfind1 : (db.subscriptions.map
        (fun t => if t.squareSubscriptionId == some s.id then { t with status := s.status } else t)).find?
          (fun t => t.squareSubscriptionId == some s.id)
        = some (if row.squareSubscriptionId == some s.id
            then { row with status := s.status } else row) := by
      rw [List.find?_map]
      have hcomp : ((fun t : SubscriptionRow => t.squareSubscriptionId == some s.id) ∘
          (fun t => if t.squareSubscriptionId == some s.id then { t with status := s.status } else t))
          = fun t => t.squareSubscriptionId == some s.id := funext hkey
      rw [hcomp, hfind]
      rfl
    have husers : (handleSubscriptionUpdatedWebhook db none s).db.users
        = db.users.map (fun v => if v.id == row.userId
            then { v with subscriptionActive := false } else v) := by
      simp only [handleSubscriptionUpdatedWebhook, hcond, if_true, hfind1, hrowid]
    rw [husers] at hu
    obtain ⟨u0, hu0, rfl⟩ := List.mem_map.mp hu
    cases h0 : (u0.id == row.userId)
    · simp only [h0, Bool.false_eq_true, if_false] at hid ⊢
      exact absurd hid (beq_eq_false_iff_ne.mp h0)
    · simp [h0]

/-- Witness for C9 at a concrete store: a CANCELED update for "sub1"
clears the owning user's flag (which was set). -/
theorem subscriptionUpdated_sets_status_and_clears_flag_witness :
    dbActive.subscriptions.filter (fun t => t.squareSubscriptionId == some "sub1") = [subRow1] ∧
    (∀ u ∈ (handleSubscriptionUpdatedWebhook dbActive none ⟨"sub1", "cust1", "CANCELED"⟩).db.users,
        u.id = subRow1.userId → u.subscriptionActive = false) :=
  ⟨by decide,
   (subscriptionUpdated_sets_status_and_clears_flag dbActive ⟨"sub1", "cust1", "CANCELED"⟩
      subRow1 (by decide)).2 (Or.inl rfl)⟩

/-- C10: every payment row inserted by the payment-made and
payment-failed webhook handlers has a null subscription reference and a
null failure reason: each handler either leaves the payments table
unchanged or appends exactly one row whose subscriptionId and
failureReason are none. -/
theorem payment_rows_null_subscription_and_reason
    (db : DBState) (fault : Option String) (inv : InvoicePayload) :
    ((handlePaymentSuccessWebhook db fault inv).db.payments = db.payments ∨
      ∃ p : PaymentRow,
        (handlePaymentSuccessWebhook db fault inv).db.payments = db.payments ++ [p] ∧
        p.subscriptionId = none ∧ p.failureReason = none) ∧
    ((handlePaymentFailedWebhook db fault inv).db.payments = db.payments ∨
      ∃ p : PaymentRow,
        (handlePaymentFailedWebhook db fault inv).db.payments = db.payments ++ [p] ∧
        p.subscriptionId = none ∧ p.failureReason = none) := by
  constructor
  · cases fault with
    | some msg => exact Or.inl (by simp [handlePaymentSuccessWebhook])
    | none =>
      cases hsel : selectUserIdBySquareSubId db inv.subscriptionId with
      | none => exact Or.inl (by simp [handlePaymentSuccessWebhook, hsel])
      | some uid =>
        refine Or.inr ⟨⟨uid, none, jsOrInt inv.totalMoneyAmount 0,
          jsOrStr inv.totalMoneyCurrency "GBP", "SUCCESS", some inv.id, none⟩, ?_, rfl, rfl⟩
        simp [handlePaymentSuccessWebhook, hsel]
  · cases fault with
    | some msg => exact Or.inl (by simp [handlePaymentFailedWebhook])
    | none =>
      cases hsel : selectUserIdBySquareSubId db inv.subscriptionId with
      | none => exact Or.inl (by simp [handlePaymentFailedWebhook, hsel])
      | some uid =>
        refine Or.inr ⟨⟨uid, none, jsOrInt inv.totalMoneyAmount 0,
          jsOrStr inv.totalMoneyCurrency "GBP", "FAILED", some inv.id, none⟩, ?_, rfl, rfl⟩
        simp [handlePaymentFailedWebhook, hsel]

/-- C1 counterexample: a concrete run in which the gateway subscription
creation (step 5) succeeds but the local persistence of the subscription
row (step 6) throws; the operation reports success (the 201 created
payload) instead of a StorageError, and no local subscription row is
stored. -/
theorem createSubscription_insertFailure_still_success_concrete :
    (createSubscriptionPost dbOneUser gwOk faultsInsertSubThrows reqA).resp =
      SubResult.created "gwsub1" "pro-monthly" "Pro Plan" "MONTHLY" 299 "GBP"
        "ACTIVE" "2024-06-01" 1 "a@x.com" "custNew" ∧
    (createSubscriptionPost dbOneUser gwOk faultsInsertSubThrows reqA).db.subscriptions = [] := by
  constructor <;> decide

/-- C1 amended: for every request (valid fields, known plan, gateway
location, customer and subscription creation all succeeding) in which
the user-resolution step succeeds — whether the email matches an
existing user without an active subscription or is fresh and the user
INSERT succeeds — and the local persistence of the subscription row
(step 6) fails, the operation logs the failure and reports success
anyway: it returns the 201 created response, whose payload carries the
gateway subscription id, and leaves no local subscription row; no
StorageError is surfaced. -/
theorem createSubscription_insertFailure_reports_success
    (db : DBState) (gw : SquareGateway) (faults : DbFaults) (r : SubRequest)
    (p : PlanInfo) (uid : Nat) (loc cid : String) (gsub : GatewaySub)
    (he : r.email ≠ "") (hf : r.firstName ≠ "") (hl : r.lastName ≠ "")
    (ht : r.paymentToken ≠ "")
    (hplan : SUBSCRIPTION_PLANS r.planType = some p)
    (hloc : gw.locationResult = Except.ok loc)
    (hchk : faults.checkUserThrows = false)
    (hresolve :
      (∃ u : UserRow, findUserByEmail db r.email = some u ∧
        hasActiveSubscription db u.id = false ∧ uid = u.id) ∨
      (findUserByEmail db r.email = none ∧ faults.insertUserThrows = false ∧
        uid = db.nextUserId))
    (hcust : gw.customerResult = Except.ok cid)
    (hsub : gw.subscriptionResult = Except.ok gsub)
    (hfail : faults.insertSubscriptionThrows = true) :
    (createSubscriptionPost db gw faults r).resp =
      SubResult.created gsub.id r.planType p.planName p.frequency p.price "GBP"
        gsub.status gsub.startDate uid r.email cid ∧
    (createSubscriptionPost db gw faults r).db.subscriptions = db.subscriptions := by
  have e1 : (r.email == "") = false := beq_eq_false_iff_ne.mpr he
  have e2 : (r.firstName == "") = false := beq_eq_false_iff_ne.mpr hf
  have e3 : (r.lastName == "") = false := beq_eq_false_iff_ne.mpr hl
  have e5 : (r.paymentToken == "") = false := beq_eq_false_iff_ne.mpr ht
  have hpt : r.planType ≠ "" := by
    intro hh
    rw [hh] at hplan
    have hnone : SUBSCRIPTION_PLANS "" = none := by decide
    rw [hnone] at hplan
    exact Option.noConfusion hplan
  have e4 : (r.planType == "") = false := beq_eq_false_iff_ne.mpr hpt
  rcases hresolve with ⟨u, huser, hact, rfl⟩ | ⟨hmiss, hins, rfl⟩
  · cases hupd : faults.updateCustomerIdThrows <;>
      constructor <;>
        simp [createSubscriptionPost, createSubscriptionRest, subMissingFields,
              e1, e2, e3, e4, e5, hplan, hloc, hchk, huser, hact, hcust, hsub, hfail, hupd]
  · have hmiss1 : db.users.find? (fun u => u.email == r.email) = none := hmiss
    have hany : db.users.any (fun u => u.email == r.email) = false :=
      any_eq_false_of_find?_eq_none hmiss1
    cases hupd : faults.updateCustomerIdThrows <;>
      constructor <;>
        simp [createSubscriptionPost, createSubscriptionRest, subMissingFields,
              e1, e2, e3, e4, e5, hplan, hloc, hchk, hmiss, hany, hins, hcust, hsub,
              hfail, hupd]

/-- Witness for C1's amended theorem at concrete fixtures, exercising
both user-resolution paths: an existing user ("a@x.com") and a fresh
email ("A@X.com") each get the 201 created response while no
subscription row is stored. -/
theorem createSubscription_insertFailure_reports_success_witness :
    ((createSubscriptionPost dbOneUser gwOk faultsInsertSubThrows reqA).resp =
      SubResult.created "gwsub1" reqA.planType "Pro Plan" "MONTHLY" 299 "GBP"
        "ACTIVE" "2024-06-01" userA.id reqA.email "custNew" ∧
     (createSubscriptionPost dbOneUser gwOk faultsInsertSubThrows reqA).db.subscriptions =
      dbOneUser.subscriptions) ∧
    ((createSubscriptionPost dbOneUser gwOk faultsInsertSubThrows reqUpper).resp =
      SubResult.created "gwsub1" reqUpper.planType "Pro Plan" "MONTHLY" 299 "GBP"
        "ACTIVE" "2024-06-01" dbOneUser.nextUserId reqUpper.email "custNew" ∧
     (createSubscriptionPost dbOneUser gwOk faultsInsertSubThrows reqUpper).db.subscriptions =
      dbOneUser.subscriptions) :=
  ⟨createSubscription_insertFailure_reports_success dbOneUser gwOk faultsInsertSubThrows reqA
    ⟨"Pro Plan", "MONTHLY", 299⟩ userA.id "LOC1" "custNew" ⟨"gwsub1", "ACTIVE", "2024-06-01"⟩
    (by decide) (by decide) (by decide) (by decide) (by decide) rfl rfl
    (Or.inl ⟨userA, by decide, by decide, rfl⟩) rfl rfl rfl,
   createSubscription_insertFailure_reports_success dbOneUser gwOk faultsInsertSubThrows reqUpper
    ⟨"Pro Plan", "MONTHLY", 299⟩ dbOneUser.nextUserId "LOC1" "custNew"
    ⟨"gwsub1", "ACTIVE", "2024-06-01"⟩
    (by decide) (by decide) (by decide) (by decide) (by decide) rfl rfl
    (Or.inr ⟨by decide, rfl, rfl⟩) rfl rfl rfl⟩

/-- C2 counterexample: processing the same payment-made webhook event
twice at a concrete store with a matching subscription leaves two payment
rows for the external payment reference "inv1", not one. -/
theorem paymentWebhook_replay_two_rows_concrete :
    ((handlePaymentSuccessWebhook
        (handlePaymentSuccessWebhook dbWithSub none inv1).db none inv1).db.payments.filter
      (fun p => p.squarePaymentId == some "inv1")).length = 2 := by
  decide

/-- C2 amended: processing the same payment-made webhook event twice
(same external payment reference) results in two payment rows for that
reference whenever a local subscription matches: the handler performs no
dedupe on the external payment reference before insert, so replay
double-applies the insert. -/
theorem paymentWebhook_replay_inserts_two_rows
    (db : DBState) (inv : InvoicePayload) (uid : Nat)
    (hsel : selectUserIdBySquareSubId db inv.subscriptionId = some uid) :
    ((handlePaymentSuccessWebhook
        (handlePaymentSuccessWebhook db none inv).db none inv).db.payments.filter
      (fun p => p.squarePaymentId == some inv.id)).length =
    (db.payments.filter (fun p => p.squarePaymentId == some inv.id)).length + 2 := by
  simp only [selectUserIdBySquareSubId] at hsel
  simp [handlePaymentSuccessWebhook, selectUserIdBySquareSubId, hsel,
        List.filter_append, List.filter_cons]

/-- Witness for C2's amended theorem at the concrete fixture. -/
theorem paymentWebhook_replay_inserts_two_rows_witness :
    ((handlePaymentSuccessWebhook
        (handlePaymentSuccessWebhook dbWithSub none inv1).db none inv1).db.payments.filter
      (fun p => p.squarePaymentId == some inv1.id)).length =
    (dbWithSub.payments.filter (fun p => p.squarePaymentId == some inv1.id)).length + 2 :=
  paymentWebhook_replay_inserts_two_rows dbWithSub inv1 1 (by decide)

/-- C3 counterexample: a concrete registration in which the advisory
pre-check passes but a concurrent registration commits the same email
before the INSERT, so the store rejects the INSERT on the unique email
constraint; the handler responds with the generic 500 "Internal server
error", not with the 409 DuplicateEmail response. -/
theorem register_uniqueViolation_500_concrete :
    (handleUserRegistration emptyDb interfereDup "hashA" "sess1"
        ⟨"a@x.com", "A", "B", "password1"⟩).resp =
      RegisterResult.fail 500 "Internal server error" ∧
    (handleUserRegistration emptyDb interfereDup "hashA" "sess1"
        ⟨"a@x.com", "A", "B", "password1"⟩).resp ≠
      RegisterResult.fail 409 "User already exists with this email" := by
  constructor <;> decide

/-- C3 amended: for every registration where the store rejects the user
INSERT because of the unique constraint on email after the advisory
pre-check passed (a concurrent duplicate registration), register reports
the generic 500 "Internal server error"; the 409 DuplicateEmail response
is produced only by the advisory pre-check. -/
theorem register_uniqueViolation_returns_500
    (db : DBState) (interfere : DBState → DBState) (hash st : String)
    (r : RegisterRequest)
    (he : r.email ≠ "") (hf : r.firstName ≠ "") (hl : r.lastName ≠ "")
    (hre : emailRegexTest r.email = true) (hpw : 8 ≤ r.password.length)
    (hpre : findUserByEmail db (toLowerStr r.email) = none)
    (hdup : (interfere db).users.any (fun u => u.email == toLowerStr r.email) = true) :
    (handleUserRegistration db interfere hash st r).resp =
      RegisterResult.fail 500 "Internal server error" := by
  have e1 : (r.email == "") = false := beq_eq_false_iff_ne.mpr he
  have f1 : (r.firstName == "") = false := beq_eq_false_iff_ne.mpr hf
  have l1 : (r.lastName == "") = false := beq_eq_false_iff_ne.mpr hl
  have pwne : (r.password == "") = false := by
    refine beq_eq_false_iff_ne.mpr (fun hh => ?_)
    rw [hh] at hpw
    exact absurd hpw (by decide)
  have pwlt : ¬(r.password.length < 8) := Nat.not_lt.mpr hpw
  simp [handleUserRegistration, regMissingFields, e1, f1, l1, pwne, pwlt, hre, hpre, hdup]

/-- Witness for C3's amended theorem at the concrete fixture. -/
theorem register_uniqueViolation_returns_500_witness :
    (handleUserRegistration emptyDb interfereDup "hashA" "sess1"
        ⟨"a@x.com", "A", "B", "password1"⟩).resp =
      RegisterResult.fail 500 "Internal server error" :=
  register_uniqueViolation_returns_500 emptyDb interfereDup "hashA" "sess1"
    ⟨"a@x.com", "A", "B", "password1"⟩
    (by decide) (by decide) (by decide) (by decide) (by decide) (by decide) (by decide)

/-- C4 counterexample: a concrete webhook request with a signature header
present and a well-formed recognized event whose per-event processing
throws a store error is answered with status 500 carrying the error
message, not with 200. -/
theorem webhook_processingFailure_500_concrete :
    (webhookOnRequestPost dbWithSub (some "D1 failure") (some "sigX")
        (some (WebhookEvent.paymentMade inv1))).resp.status ≠ 200 ∧
    (webhookOnRequestPost dbWithSub (some "D1 failure") (some "sigX")
        (some (WebhookEvent.paymentMade inv1))).resp =
      ⟨500, false, some "D1 failure", none⟩ := by
  constructor <;> decide

/-- C4 amended: a missing signature header or a malformed JSON body
yields 400; a request with signature present and well-formed body is
answered 200 when the per-event processing store calls do not throw (and
for unrecognized event types); but when the per-event processing throws,
the handler's catch answers 500 with the error message, not 200. -/
theorem webhook_ack_status_policy
    (db : DBState) (fault : Option String) (sig : String) (body : Option WebhookEvent) :
    (webhookOnRequestPost db fault none body).resp.status = 400 ∧
    (webhookOnRequestPost db fault (some sig) none).resp.status = 400 ∧
    (fault = none → ∀ ev, body = some ev →
      (webhookOnRequestPost db fault (some sig) body).resp.status = 200) ∧
    (∀ msg, fault = some msg → ∀ ev, body = some ev →
      (∀ ty, ev ≠ WebhookEvent.other ty) →
      (webhookOnRequestPost db fault (some sig) body).resp =
        ⟨500, false, some msg, none⟩) := by
  refine ⟨by simp [webhookOnRequestPost], by simp [webhookOnRequestPost], ?_, ?_⟩
  · rintro rfl ev rfl
    cases ev with
    | subscriptionCreated s =>
      cases hf : db.users.find? (fun u => u.squareCustomerId == some s.customerId) <;>
        simp [webhookOnRequestPost, handleSubscriptionCreatedWebhook, hf]
    | subscriptionUpdated s =>
      simp [webhookOnRequestPost, handleSubscriptionUpdatedWebhook]
    | paymentMade inv =>
      cases hsel : selectUserIdBySquareSubId db inv.subscriptionId <;>
        simp [webhookOnRequestPost, handlePaymentSuccessWebhook, hsel]
    | paymentFailed inv =>
      cases hsel : selectUserIdBySquareSubId db inv.subscriptionId <;>
        simp [webhookOnRequestPost, handlePaymentFailedWebhook, hsel]
    | other ty => simp [webhookOnRequestPost]
  · rintro msg rfl ev rfl hno
    cases ev with
    | subscriptionCreated s => simp [webhookOnRequestPost, handleSubscriptionCreatedWebhook]
    | subscriptionUpdated s => simp [webhookOnRequestPost, handleSubscriptionUpdatedWebhook]
    | paymentMade inv => simp [webhookOnRequestPost, handlePaymentSuccessWebhook]
    | paymentFailed inv => simp [webhookOnRequestPost, handlePaymentFailedWebhook]
    | other ty => exact absurd rfl (hno ty)

/-- Witness for C4's amended theorem: the processing-failure branch at a
concrete input. -/
theorem webhook_ack_status_policy_witness :
    (webhookOnRequestPost dbWithSub (some "D1 boom") (some "sigY")
        (some (WebhookEvent.paymentMade inv1))).resp =
      ⟨500, false, some "D1 boom", none⟩ :=
  (webhook_ack_status_policy dbWithSub (some "D1 boom") "sigY"
      (some (WebhookEvent.paymentMade inv1))).2.2.2 "D1 boom" rfl
    (WebhookEvent.paymentMade inv1) rfl (fun _ h => WebhookEvent.noConfusion h)

/-- C7 counterexample: with user 1 registered under "a@x.com", a
createSubscription request for "A@X.com" (same address, different
casing) does not resolve to user 1: the raw-email lookup misses, a second
user row is inserted with the email exactly as supplied, and the response
reports the new user id 2 with the un-normalized email. -/
theorem createSubscription_email_not_normalized_concrete :
    (createSubscriptionPost dbOneUser gwOk noFaults reqUpper).resp =
      SubResult.created "gwsub1" "pro-monthly" "Pro Plan" "MONTHLY" 299 "GBP"
        "ACTIVE" "2024-06-01" 2 "A@X.com" "custNew" ∧
    (createSubscriptionPost dbOneUser gwOk noFaults reqUpper).db.users.map UserRow.email =
      ["a@x.com", "A@X.com"] := by
  constructor <;> decide

/-- C7 amended: createSubscription resolves or creates the local user row
by the email exactly as supplied, with no lower-casing: the user lookup
and any new user insert use the raw email, so when no user row matches
the raw email exactly (even though one may match up to casing), a new
user row whose email is the raw input is appended and the response
carries that raw email and the fresh user id. -/
theorem createSubscription_uses_raw_email
    (db : DBState) (gw : SquareGateway) (faults : DbFaults) (r : SubRequest)
    (p : PlanInfo) (loc cid : String) (gsub : GatewaySub)
    (he : r.email ≠ "") (hf : r.firstName ≠ "") (hl : r.lastName ≠ "")
    (ht : r.paymentToken ≠ "")
    (hplan : SUBSCRIPTION_PLANS r.planType = some p)
    (hloc : gw.locationResult = Except.ok loc)
    (hchk : faults.checkUserThrows = false)
    (hins : faults.insertUserThrows = false)
    (hmiss : findUserByEmail db r.email = none)
    (hcust : gw.customerResult = Except.ok cid)
    (hsub : gw.subscriptionResult = Except.ok gsub) :
    (createSubscriptionPost db gw faults r).resp =
      SubResult.created gsub.id r.planType p.planName p.frequency p.price "GBP"
        gsub.status gsub.startDate db.nextUserId r.email cid ∧
    (createSubscriptionPost db gw faults r).db.users.map UserRow.email =
      db.users.map UserRow.email ++ [r.email] := by
  have e1 : (r.email == "") = false := beq_eq_false_iff_ne.mpr he
  have e2 : (r.firstName == "") = false := beq_eq_false_iff_ne.mpr hf
  have e3 : (r.lastName == "") = false := beq_eq_false_iff_ne.mpr hl
  have e5 : (r.paymentToken == "") = false := beq_eq_false_iff_ne.mpr ht
  have hpt : r.planType ≠ "" := by
    intro hh
    rw [hh] at hplan
    have hnone : SUBSCRIPTION_PLANS "" = none := by decide
    rw [hnone] at hplan
    exact Option.noConfusion hplan
  have e4 : (r.planType == "") = false := beq_eq_false_iff_ne.mpr hpt
  have hmiss1 : db.users.find? (fun u => u.email == r.email) = none := hmiss
  have hany : db.users.any (fun u => u.email == r.email) = false :=
    any_eq_false_of_find?_eq_none hmiss1
  have hemail : ∀ (cid2 : String) (uid : Nat) (u : UserRow),
      (if u.id = uid then { u with squareCustomerId := some cid2 } else u).email = u.email := by
    intro cid2 uid u
    by_cases h0 : u.id = uid <;> simp [h0]
  cases hupd : faults.updateCustomerIdThrows <;>
    cases hfailins : faults.insertSubscriptionThrows <;>
      refine ⟨?_, ?_⟩ <;>
        simp [createSubscriptionPost, createSubscriptionRest, subMissingFields,
              e1, e2, e3, e4, e5, hplan, hloc, hchk, hins, hmiss, hany, hcust, hsub,
              hupd, hfailins, hemail]

/-- Witness for C7's amended theorem at the concrete fixture. -/
theorem createSubscription_uses_raw_email_witness :
    (createSubscriptionPost dbOneUser gwOk noFaults reqUpper).resp =
      SubResult.created "gwsub1" reqUpper.planType "Pro Plan" "MONTHLY" 299 "GBP"
        "ACTIVE" "2024-06-01" dbOneUser.nextUserId reqUpper.email "custNew" ∧
    (createSubscriptionPost dbOneUser gwOk noFaults reqUpper).db.users.map UserRow.email =
      dbOneUser.users.map UserRow.email ++ [reqUpper.email] :=
  createSubscription_uses_raw_email dbOneUser gwOk noFaults reqUpper
    ⟨"Pro Plan", "MONTHLY", 299⟩ "LOC1" "custNew" ⟨"gwsub1", "ACTIVE", "2024-06-01"⟩
    (by decide) (by decide) (by decide) (by decide) (by decide) rfl rfl rfl
    (by decide) rfl rfl

end SchengenCalc
